import Mathlib

/-!
Verification of the risk-manager core (src/risk_manager.rs).

The Rust `Decimal` type (rust_decimal) is modelled as ℚ: the spec requires
exact decimal arithmetic, every `Decimal::new(m, e)` literal denotes the
rational m / 10^e, and all operations used by the core (add, sub, mul, abs,
signum, max, comparisons) agree with the rational operations on the values
that occur. `Decimal.is_sign_positive` is modelled as `0 ≤ s` and
`is_sign_negative` as `s < 0`; rust_decimal carries a sign bit on zero, but a
zero share count contributes `0 * price = 0` to every fold in the source, so
the two partitions coincide on every metric value.

The `HashMap<String, (Shares, Price)>` of holdings is modelled as an
association list `List (String × ℚ × ℚ)` (ticker, shares, price); HashMap
iteration order is arbitrary and every fold in the source is a sum, hence
order-independent, so the list order is immaterial.

The blocking HTTP price lookup in the market-order branch
(`reqwest::blocking::get(url).unwrap().json().unwrap()`) is modelled as an
oracle `String → Option ℚ`; `none` stands for an unreachable source or an
undecodable body, on which the source panics (both `.unwrap()` calls), which
the model records as `RiskResult.crash`. Failures the source propagates with
`?` are `RiskResult.err`.
-/

namespace RiskSpec

/-- Model of `Decimal::new(m, e)`: the rational m / 10^e. -/
def decimal_new (m : Int) (e : Nat) : ℚ :=
  (m : ℚ) / 10 ^ e

/-- Model of `Decimal::signum` (num_traits `Signed::signum`): 0 at zero,
otherwise ±1 by sign. -/
def dsignum (q : ℚ) : ℚ :=
  if q = 0 then 0 else if 0 < q then 1 else -1

/-- The order-type field of `trading_base::TradeIntent`; the source matches
`Limit { limit_price }`, `Market`, and a wildcard arm for every other
variant, which `other` stands for. -/
inductive OrderType
  | limit (limit_price : ℚ)
  | market
  | other
  deriving DecidableEq

/-- The fields of `trading_base::TradeIntent` that the core reads. -/
structure TradeIntent where
  ticker : String
  qty : Int
  order_type : OrderType
  deriving DecidableEq

/-- `DenyReason` from src/risk_manager.rs. -/
inductive DenyReason
  | insufficientBuyingPower (buying_power : ℚ)
  | changeInPositionSide
  deriving DecidableEq

/-- `RiskCheckResponse` from src/risk_manager.rs. -/
inductive RiskCheckResponse
  | granted (intent : TradeIntent)
  | denied (intent : TradeIntent) (reason : DenyReason)
  deriving DecidableEq

/-- Outcome of `RiskManager::risk_check`, which in the source returns
`Result<RiskCheckResponse>` but can also panic: `ok` is `Ok`, `err` is a
propagated `Err`, and `crash` is a panic (`.unwrap()` on a failed price
lookup). -/
inductive RiskResult
  | ok (response : RiskCheckResponse)
  | err (msg : String)
  | crash (msg : String)
  deriving DecidableEq

/-- The portfolio-state fields of `RiskManager` (the kafka consumer, alpaca
client and datastore URL are connection wiring outside the core; the
datastore URL is replaced by the price oracle passed to `risk_check`). -/
structure RiskManager where
  cash : ℚ
  holdings : List (String × ℚ × ℚ)
  is_pattern_day_trader : Bool
  last_equity : ℚ
  last_maintenance_margin : ℚ

/-- Model of `self.holdings.get(ticker)` on the association list. -/
def get_holding (ticker : String) : List (String × ℚ × ℚ) → Option (ℚ × ℚ)
  | [] => none
  | (t, sp) :: rest => if t = ticker then some sp else get_holding ticker rest

/-- Model of `self.holdings.entry(ticker).and_modify(|(s, p)| { *s = s + shares; *p = price }).or_insert((shares, price))`. -/
def update_entries (ticker : String) (shares price : ℚ) :
    List (String × ℚ × ℚ) → List (String × ℚ × ℚ)
  | [] => [(ticker, shares, price)]
  | (t, sp) :: rest =>
      if t = ticker then (t, sp.1 + shares, price) :: rest
      else (t, sp) :: update_entries ticker shares price rest

/-- `RiskManager::update_holdings`: apply a fill and decrement cash by
`shares * price`. -/
def update_holdings (m : RiskManager) (ticker : String) (shares price : ℚ) :
    RiskManager :=
  RiskManager.mk (m.cash - shares * price)
    (update_entries ticker shares price m.holdings)
    m.is_pattern_day_trader m.last_equity m.last_maintenance_margin

/-- Model of `self.holdings.entry(ticker).and_modify(|(_, p)| *p = price)`
(no insertion when the ticker is unheld). -/
def update_price_entries (ticker : String) (price : ℚ) :
    List (String × ℚ × ℚ) → List (String × ℚ × ℚ)
  | [] => []
  | (t, sp) :: rest =>
      if t = ticker then (t, sp.1, price) :: rest
      else (t, sp) :: update_price_entries ticker price rest

/-- `RiskManager::update_price`. -/
def update_price (m : RiskManager) (ticker : String) (price : ℚ) : RiskManager :=
  RiskManager.mk m.cash (update_price_entries ticker price m.holdings)
    m.is_pattern_day_trader m.last_equity m.last_maintenance_margin

/-- `RiskManager::update_cash`. -/
def update_cash (m : RiskManager) (cash : ℚ) : RiskManager :=
  RiskManager.mk cash m.holdings
    m.is_pattern_day_trader m.last_equity m.last_maintenance_margin

/-- `RiskManager::long_market_exposure`. -/
def long_market_exposure (m : RiskManager) : ℚ :=
  (m.holdings.filter fun e => decide (0 ≤ e.2.1)).foldl
    (fun state e => state + e.2.1 * e.2.2) 0

/-- `RiskManager::short_market_exposure`. -/
def short_market_exposure (m : RiskManager) : ℚ :=
  (m.holdings.filter fun e => decide (e.2.1 < 0)).foldl
    (fun state e => state + -e.2.1 * e.2.2) 0

/-- `RiskManager::gross_market_exposure`. -/
def gross_market_exposure (m : RiskManager) : ℚ :=
  m.holdings.foldl (fun state e => state + |e.2.1| * e.2.2) 0

/-- `RiskManager::net_market_exposure`. -/
def net_market_exposure (m : RiskManager) : ℚ :=
  m.holdings.foldl (fun state e => state + e.2.1 * e.2.2) 0

/-- `RiskManager::equity`. -/
def equity (m : RiskManager) : ℚ :=
  net_market_exposure m + m.cash

/-- `RiskManager::initial_margin` (rate `Decimal::new(5, 1)` = 0.5). -/
def initial_margin (m : RiskManager) : ℚ :=
  m.holdings.foldl (fun state e => state + |e.2.1| * e.2.2 * decimal_new 5 1) 0

/-- The `let factor` computed inside the `maintenance_margin` fold closure:
long positions priced at or above `Decimal::new(25, 1)` = 2.5 and short
positions priced at or above `Decimal::new(5, 0)` = 5 use rate
`Decimal::new(3, 1)` = 0.3, else rate `Decimal::ONE`. -/
def maintenance_factor (e : String × ℚ × ℚ) : ℚ :=
  if 0 ≤ e.2.1 then
    if e.2.2 ≥ decimal_new 25 1 then decimal_new 3 1 else 1
  else
    if e.2.2 ≥ decimal_new 5 0 then decimal_new 3 1 else 1

/-- `RiskManager::maintenance_margin`. -/
def maintenance_margin (m : RiskManager) : ℚ :=
  m.holdings.foldl
    (fun state e => state + |e.2.1| * e.2.2 * maintenance_factor e) 0

/-- `RiskManager::multiplier`. -/
def multiplier (m : RiskManager) : ℚ :=
  if m.is_pattern_day_trader then
    if equity m < decimal_new 2000 0 then 1
    else if equity m < decimal_new 25000 0 then decimal_new 2 0
    else decimal_new 4 0
  else if equity m > decimal_new 25000 0 then decimal_new 2 0
  else decimal_new 1 0

/-- `RiskManager::regt_buying_power`. -/
def regt_buying_power (m : RiskManager) : ℚ :=
  max ((equity m - initial_margin m) * decimal_new 2 0) 0

/-- `RiskManager::daytrading_buying_power`. -/
def daytrading_buying_power (m : RiskManager) : ℚ :=
  max ((m.last_equity - m.last_maintenance_margin) * multiplier m
        - gross_market_exposure m) 0

/-- `RiskManager::buying_power`. -/
def buying_power (m : RiskManager) : ℚ :=
  max (regt_buying_power m) (daytrading_buying_power m)

/-- The tail of `risk_check` after `required_buying_power` is known: compare
against `buying_power()` with strict `>`. -/
def compare_buying_power (m : RiskManager) (ti : TradeIntent)
    (required_buying_power : ℚ) : RiskResult :=
  if buying_power m > required_buying_power then
    RiskResult.ok (RiskCheckResponse.granted ti)
  else
    RiskResult.ok
      (RiskCheckResponse.denied ti
        (DenyReason.insufficientBuyingPower (buying_power m)))

/-- The non-closing half of `risk_check`: compute `required_buying_power`
from the order type (limit price, or oracle price with the
`Decimal::new(103, 2)` markup — a `none` oracle answer models the panicking
`.unwrap()` calls) and compare it with the buying power. -/
def buying_power_path (m : RiskManager) (lookup_price : String → Option ℚ)
    (ti : TradeIntent) : RiskResult :=
  match ti.order_type with
  | OrderType.limit limit_price =>
      compare_buying_power m ti (limit_price * |(ti.qty : ℚ)|)
  | OrderType.market =>
      match lookup_price ti.ticker with
      | some price =>
          compare_buying_power m ti
            (price * decimal_new 103 2 * |(ti.qty : ℚ)|)
      | none => RiskResult.crash "called Result::unwrap() on an Err value"
  | OrderType.other =>
      RiskResult.err "Risk manager can only deal with Market and Limit orders currently"

/-- `RiskManager::risk_check`: closing fast path when the ticker is held
with sign opposite to the proposed quantity, otherwise the buying-power
path. -/
def risk_check (m : RiskManager) (lookup_price : String → Option ℚ)
    (ti : TradeIntent) : RiskResult :=
  match get_holding ti.ticker m.holdings with
  | some (shares, _) =>
      if dsignum (ti.qty : ℚ) * dsignum shares = -1 then
        if |(ti.qty : ℚ)| > |shares| then
          RiskResult.ok
            (RiskCheckResponse.denied ti DenyReason.changeInPositionSide)
        else
          RiskResult.ok (RiskCheckResponse.granted ti)
      else buying_power_path m lookup_price ti
  | none => buying_power_path m lookup_price ti

theorem foldl_add_eq {α : Type} (f : α → ℚ) (l : List α) (a : ℚ) :
    l.foldl (fun state e => state + f e) a = a + (l.map f).sum := by
  induction l generalizing a with
  | nil => simp
  | cons e l ih => simp [ih, add_assoc]

theorem exposure_fold_split (l : List (String × ℚ × ℚ)) :
    (l.map fun e => |e.2.1| * e.2.2).sum =
      ((l.filter fun e => decide (0 ≤ e.2.1)).map fun e => e.2.1 * e.2.2).sum +
      ((l.filter fun e => decide (e.2.1 < 0)).map fun e => -e.2.1 * e.2.2).sum := by
  induction l with
  | nil => simp
  | cons e l ih =>
    by_cases h : 0 ≤ e.2.1
    · simp [List.filter_cons, h, not_lt.mpr h, abs_of_nonneg h, ih]
      ring
    · have hlt : e.2.1 < 0 := lt_of_not_ge h
      simp [List.filter_cons, h, hlt, abs_of_neg hlt, ih]
      ring

/-- Claim C8: for every portfolio state, gross market exposure equals long
market exposure plus short market exposure, in exact decimal arithmetic. -/
theorem gross_eq_long_plus_short (m : RiskManager) :
    gross_market_exposure m = long_market_exposure m + short_market_exposure m := by
  unfold gross_market_exposure long_market_exposure short_market_exposure
  rw [foldl_add_eq (fun e : String × ℚ × ℚ => |e.2.1| * e.2.2),
      foldl_add_eq (fun e : String × ℚ × ℚ => e.2.1 * e.2.2),
      foldl_add_eq (fun e : String × ℚ × ℚ => -e.2.1 * e.2.2)]
  simp [exposure_fold_split m.holdings]

theorem risk_check_slow_path (m : RiskManager)
    (lookup_price : String → Option ℚ) (ti : TradeIntent)
    (h : ∀ s p, get_holding ti.ticker m.holdings = some (s, p) →
      dsignum (ti.qty : ℚ) * dsignum s ≠ -1) :
    risk_check m lookup_price ti = buying_power_path m lookup_price ti := by
  unfold risk_check
  cases hh : get_holding ti.ticker m.holdings with
  | none => rfl
  | some sp =>
      obtain ⟨s, p⟩ := sp
      dsimp only
      rw [if_neg (h s p hh)]

theorem risk_check_fast_path (m : RiskManager)
    (lookup_price : String → Option ℚ) (ti : TradeIntent) (s p : ℚ)
    (hheld : get_holding ti.ticker m.holdings = some (s, p))
    (hopp : dsignum (ti.qty : ℚ) * dsignum s = -1) :
    risk_check m lookup_price ti =
      if |(ti.qty : ℚ)| > |s| then
        RiskResult.ok
          (RiskCheckResponse.denied ti DenyReason.changeInPositionSide)
      else RiskResult.ok (RiskCheckResponse.granted ti) := by
  unfold risk_check
  rw [hheld]
  dsimp only
  rw [if_pos hopp]

/-- Claim C1: a trade on a held ticker with sign opposite to the held shares
and absolute quantity at most the absolute held shares is always Granted
with the original intent, for every portfolio state, every price oracle and
every order type. -/
theorem risk_check_reducing_granted (m : RiskManager)
    (lookup_price : String → Option ℚ) (ti : TradeIntent) (s p : ℚ)
    (hheld : get_holding ti.ticker m.holdings = some (s, p))
    (hopp : dsignum (ti.qty : ℚ) * dsignum s = -1)
    (hle : |(ti.qty : ℚ)| ≤ |s|) :
    risk_check m lookup_price ti = RiskResult.ok (RiskCheckResponse.granted ti) := by
  unfold risk_check
  rw [hheld]
  dsimp only
  rw [if_pos hopp, if_neg (not_lt.mpr hle)]

theorem risk_check_reducing_granted_witness :
    risk_check (RiskManager.mk 0 [("AAPL", 5, 100)] false 0 0)
      (fun _ => none) (TradeIntent.mk "AAPL" (-3) OrderType.other) =
      RiskResult.ok
        (RiskCheckResponse.granted (TradeIntent.mk "AAPL" (-3) OrderType.other)) :=
  risk_check_reducing_granted _ _ _ 5 100 rfl (by norm_num [dsignum])
    (by norm_num)

/-- Claim C2: a trade on a held ticker with sign opposite to the held shares
and absolute quantity strictly greater than the absolute held shares is
always Denied with ChangeInPositionSide, regardless of buying power, price
oracle and order type. -/
theorem risk_check_overclose_denied (m : RiskManager)
    (lookup_price : String → Option ℚ) (ti : TradeIntent) (s p : ℚ)
    (hheld : get_holding ti.ticker m.holdings = some (s, p))
    (hopp : dsignum (ti.qty : ℚ) * dsignum s = -1)
    (hgt : |(ti.qty : ℚ)| > |s|) :
    risk_check m lookup_price ti =
      RiskResult.ok
        (RiskCheckResponse.denied ti DenyReason.changeInPositionSide) := by
  unfold risk_check
  rw [hheld]
  dsimp only
  rw [if_pos hopp, if_pos hgt]

theorem risk_check_overclose_denied_witness :
    risk_check (RiskManager.mk 0 [("AAPL", 5, 100)] false 0 0)
      (fun _ => none) (TradeIntent.mk "AAPL" (-7) OrderType.other) =
      RiskResult.ok
        (RiskCheckResponse.denied (TradeIntent.mk "AAPL" (-7) OrderType.other)
          DenyReason.changeInPositionSide) :=
  risk_check_overclose_denied _ _ _ 5 100 rfl (by norm_num [dsignum])
    (by norm_num)

/-- Claim C3: for a limit-order proposal that does not take the closing fast
path, risk_check grants exactly when the buying power strictly exceeds
`limit_price * |quantity|` and otherwise denies with
InsufficientBuyingPower carrying the current buying power; in particular
equality of buying power and required amount yields Denied. -/
theorem risk_check_limit_buying_power (m : RiskManager)
    (lookup_price : String → Option ℚ) (ti : TradeIntent) (limit_price : ℚ)
    (hot : ti.order_type = OrderType.limit limit_price)
    (hslow : ∀ s p, get_holding ti.ticker m.holdings = some (s, p) →
      dsignum (ti.qty : ℚ) * dsignum s ≠ -1) :
    (risk_check m lookup_price ti =
      if buying_power m > limit_price * |(ti.qty : ℚ)| then
        RiskResult.ok (RiskCheckResponse.granted ti)
      else
        RiskResult.ok
          (RiskCheckResponse.denied ti
            (DenyReason.insufficientBuyingPower (buying_power m)))) ∧
    (buying_power m = limit_price * |(ti.qty : ℚ)| →
      risk_check m lookup_price ti =
        RiskResult.ok
          (RiskCheckResponse.denied ti
            (DenyReason.insufficientBuyingPower (buying_power m)))) := by
  have hmain : risk_check m lookup_price ti =
      if buying_power m > limit_price * |(ti.qty : ℚ)| then
        RiskResult.ok (RiskCheckResponse.granted ti)
      else
        RiskResult.ok
          (RiskCheckResponse.denied ti
            (DenyReason.insufficientBuyingPower (buying_power m))) := by
    rw [risk_check_slow_path m lookup_price ti hslow]
    unfold buying_power_path
    rw [hot]
    dsimp only
    rfl
  refine ⟨hmain, fun heq => ?_⟩
  rw [hmain, if_neg (by rw [heq]; exact lt_irrefl _)]

theorem risk_check_limit_buying_power_witness :
    risk_check (RiskManager.mk 300 [] false 0 0) (fun _ => none)
      (TradeIntent.mk "AAPL" 2 (OrderType.limit 100)) =
      RiskResult.ok
        (RiskCheckResponse.granted
          (TradeIntent.mk "AAPL" 2 (OrderType.limit 100))) := by
  have h := (risk_check_limit_buying_power (RiskManager.mk 300 [] false 0 0)
      (fun _ => none) (TradeIntent.mk "AAPL" 2 (OrderType.limit 100)) 100 rfl
      (by intro s p hp; simp [get_holding] at hp)).1
  rw [h]
  norm_num [buying_power, regt_buying_power, daytrading_buying_power, equity,
    net_market_exposure, initial_margin, gross_market_exposure, multiplier,
    decimal_new]

/-- Claim C7: granting is monotonic in buying power: for a trade evaluated
on the buying-power path in both states with the same price oracle (hence
the same required amount), if it is granted at buying power B it is granted
at any strictly larger buying power. -/
theorem risk_check_monotone_buying_power (m1 m2 : RiskManager)
    (lookup_price : String → Option ℚ) (ti : TradeIntent)
    (h1 : ∀ s p, get_holding ti.ticker m1.holdings = some (s, p) →
      dsignum (ti.qty : ℚ) * dsignum s ≠ -1)
    (h2 : ∀ s p, get_holding ti.ticker m2.holdings = some (s, p) →
      dsignum (ti.qty : ℚ) * dsignum s ≠ -1)
    (hbp : buying_power m1 < buying_power m2)
    (hg : risk_check m1 lookup_price ti =
      RiskResult.ok (RiskCheckResponse.granted ti)) :
    risk_check m2 lookup_price ti =
      RiskResult.ok (RiskCheckResponse.granted ti) := by
  rw [risk_check_slow_path m1 lookup_price ti h1] at hg
  rw [risk_check_slow_path m2 lookup_price ti h2]
  unfold buying_power_path at hg ⊢
  cases hot : ti.order_type with
  | limit limit_price =>
      rw [hot] at hg
      dsimp only at hg ⊢
      unfold compare_buying_power at hg ⊢
      by_cases hc : buying_power m1 > limit_price * |(ti.qty : ℚ)|
      · rw [if_pos (lt_trans hc hbp)]
      · rw [if_neg hc] at hg
        simp at hg
  | market =>
      rw [hot] at hg
      dsimp only at hg ⊢
      cases hlp : lookup_price ti.ticker with
      | none => rw [hlp] at hg; simp at hg
      | some price =>
          rw [hlp] at hg
          dsimp only at hg ⊢
          unfold compare_buying_power at hg ⊢
          by_cases hc :
              buying_power m1 > price * decimal_new 103 2 * |(ti.qty : ℚ)|
          · rw [if_pos (lt_trans hc hbp)]
          · rw [if_neg hc] at hg
            simp at hg
  | other =>
      rw [hot] at hg
      simp at hg

theorem risk_check_monotone_buying_power_witness :
    risk_check (RiskManager.mk 400 [] false 0 0) (fun _ => none)
      (TradeIntent.mk "AAPL" 2 (OrderType.limit 100)) =
      RiskResult.ok
        (RiskCheckResponse.granted
          (TradeIntent.mk "AAPL" 2 (OrderType.limit 100))) := by
  refine risk_check_monotone_buying_power (RiskManager.mk 300 [] false 0 0)
    (RiskManager.mk 400 [] false 0 0) (fun _ => none)
    (TradeIntent.mk "AAPL" 2 (OrderType.limit 100))
    (by intro s p hp; simp [get_holding] at hp)
    (by intro s p hp; simp [get_holding] at hp) ?_ ?_
  · norm_num [buying_power, regt_buying_power, daytrading_buying_power, equity,
      net_market_exposure, initial_margin, gross_market_exposure, multiplier,
      decimal_new]
  · norm_num [risk_check, get_holding, buying_power_path, compare_buying_power,
      buying_power, regt_buying_power, daytrading_buying_power, equity,
      net_market_exposure, initial_margin, gross_market_exposure, multiplier,
      decimal_new]

/-- Claim C4 (code bug witnessed): at the failing input — a market-order
proposal reaching the buying-power path while the live-price lookup fails —
risk_check panics (the source calls `.unwrap()` twice on the HTTP get and
the JSON decode), modelled as `RiskResult.crash`; it does not return an
error result for that single check as the spec requires. The portfolio
state is untouched in either reading: `risk_check` borrows `&self`
immutably and the model is a pure function of the state. -/
theorem risk_check_market_lookup_failure_crashes :
    risk_check (RiskManager.mk 300 [] false 0 0) (fun _ => none)
      (TradeIntent.mk "AAPL" 1 OrderType.market) =
      RiskResult.crash "called Result::unwrap() on an Err value" := rfl

theorem get_holding_update_entries_self (ticker : String) (shares price : ℚ) :
    ∀ l : List (String × ℚ × ℚ),
      get_holding ticker (update_entries ticker shares price l) =
        (match get_holding ticker l with
         | none => some (shares, price)
         | some sq => some (sq.1 + shares, price))
  | [] => by simp [get_holding, update_entries]
  | (t, sp) :: rest => by
      by_cases ht : t = ticker
      · simp [get_holding, update_entries, ht]
      · simp [get_holding, update_entries, ht,
          get_holding_update_entries_self ticker shares price rest]

theorem get_holding_update_entries_other (ticker t : String)
    (shares price : ℚ) (ht : t ≠ ticker) :
    ∀ l : List (String × ℚ × ℚ),
      get_holding t (update_entries ticker shares price l) = get_holding t l
  | [] => by simp [get_holding, update_entries, Ne.symm ht]
  | (t2, sp) :: rest => by
      by_cases h2 : t2 = ticker
      · simp [get_holding, update_entries, h2, Ne.symm ht]
      · simp [get_holding, update_entries, h2,
          get_holding_update_entries_other ticker t shares price ht rest]

/-- Claim C5: update_holdings inserts `(delta_shares, fill_price)` when the
ticker is unheld, otherwise adds the delta to the held shares and overwrites
the stored price with the fill price; in both cases cash decreases by
exactly `delta_shares * fill_price`, and every other ticker is untouched.
The operation is a total function, so it always succeeds. -/
theorem update_holdings_spec (m : RiskManager) (ticker : String)
    (shares price : ℚ) :
    (get_holding ticker m.holdings = none →
      get_holding ticker (update_holdings m ticker shares price).holdings =
        some (shares, price)) ∧
    (∀ s q, get_holding ticker m.holdings = some (s, q) →
      get_holding ticker (update_holdings m ticker shares price).holdings =
        some (s + shares, price)) ∧
    (update_holdings m ticker shares price).cash = m.cash - shares * price ∧
    (∀ t, t ≠ ticker →
      get_holding t (update_holdings m ticker shares price).holdings =
        get_holding t m.holdings) := by
  refine ⟨?_, ?_, rfl, ?_⟩
  · intro h
    have hs := get_holding_update_entries_self ticker shares price m.holdings
    rw [h] at hs
    exact hs
  · intro s q h
    have hs := get_holding_update_entries_self ticker shares price m.holdings
    rw [h] at hs
    exact hs
  · intro t ht
    exact get_holding_update_entries_other ticker t shares price ht m.holdings

theorem update_holdings_spec_witness :
    get_holding "AAPL"
        (update_holdings (RiskManager.mk 300 [("AAPL", 1, 100)] false 0 0)
          "AAPL" 2 50).holdings = some (1 + 2, 50) ∧
    (update_holdings (RiskManager.mk 300 [("AAPL", 1, 100)] false 0 0)
        "AAPL" 2 50).cash = 300 - 2 * 50 ∧
    get_holding "TSLA"
        (update_holdings (RiskManager.mk 300 [("AAPL", 1, 100)] false 0 0)
          "AAPL" 2 50).holdings =
      get_holding "TSLA"
        (RiskManager.mk 300 [("AAPL", 1, 100)] false 0 0).holdings :=
  ⟨(update_holdings_spec (RiskManager.mk 300 [("AAPL", 1, 100)] false 0 0)
      "AAPL" 2 50).2.1 1 100 rfl,
   (update_holdings_spec (RiskManager.mk 300 [("AAPL", 1, 100)] false 0 0)
      "AAPL" 2 50).2.2.1,
   (update_holdings_spec (RiskManager.mk 300 [("AAPL", 1, 100)] false 0 0)
      "AAPL" 2 50).2.2.2 "TSLA" (by decide)⟩

/-- Claim C6: multiplier is tiered by equity — for a pattern day trader, 1
below 2000, 2 from 2000 up to but excluding 25000, else 4; for a
non-pattern-day-trader, 2 strictly above 25000, else 1 — so at equity
exactly 25000 a pattern day trader gets 4 while a non-pattern-day-trader
gets 1. -/
theorem multiplier_spec (m : RiskManager) :
    (m.is_pattern_day_trader = true → equity m < 2000 → multiplier m = 1) ∧
    (m.is_pattern_day_trader = true → 2000 ≤ equity m → equity m < 25000 →
      multiplier m = 2) ∧
    (m.is_pattern_day_trader = true → 25000 ≤ equity m → multiplier m = 4) ∧
    (m.is_pattern_day_trader = false → 25000 < equity m → multiplier m = 2) ∧
    (m.is_pattern_day_trader = false → equity m ≤ 25000 → multiplier m = 1) ∧
    (equity m = 25000 →
      multiplier m = if m.is_pattern_day_trader then 4 else 1) := by
  refine ⟨?_, ?_, ?_, ?_, ?_, ?_⟩
  · intro hp hlt
    norm_num [multiplier, hp, decimal_new, hlt]
  · intro hp hge hlt
    norm_num [multiplier, hp, decimal_new, not_lt.mpr hge, hlt]
  · intro hp hge
    have h2000 : ¬ equity m < 2000 :=
      not_lt.mpr (le_trans (by norm_num) hge)
    norm_num [multiplier, hp, decimal_new, h2000, not_lt.mpr hge]
  · intro hp hgt
    norm_num [multiplier, hp, decimal_new, hgt]
  · intro hp hle
    norm_num [multiplier, hp, decimal_new, not_lt.mpr hle]
  · intro heq
    cases hp : m.is_pattern_day_trader with
    | true => norm_num [multiplier, hp, decimal_new, heq]
    | false => norm_num [multiplier, hp, decimal_new, heq]

theorem multiplier_spec_witness :
    multiplier (RiskManager.mk 25000 [] true 0 0) = 4 ∧
    multiplier (RiskManager.mk 25000 [] false 0 0) = 1 := by
  constructor
  · have h := (multiplier_spec (RiskManager.mk 25000 [] true 0 0)).2.2.2.2.2
      (by norm_num [equity, net_market_exposure])
    simpa using h
  · have h := (multiplier_spec (RiskManager.mk 25000 [] false 0 0)).2.2.2.2.2
      (by norm_num [equity, net_market_exposure])
    simpa using h

theorem get_holding_update_price_entries_self (ticker : String) (price : ℚ) :
    ∀ l : List (String × ℚ × ℚ),
      get_holding ticker (update_price_entries ticker price l) =
        (match get_holding ticker l with
         | none => none
         | some sq => some (sq.1, price))
  | [] => by simp [get_holding, update_price_entries]
  | (t, sp) :: rest => by
      by_cases ht : t = ticker
      · simp [get_holding, update_price_entries, ht]
      · simp [get_holding, update_price_entries, ht,
          get_holding_update_price_entries_self ticker price rest]

theorem get_holding_update_price_entries_other (ticker t : String)
    (price : ℚ) (ht : t ≠ ticker) :
    ∀ l : List (String × ℚ × ℚ),
      get_holding t (update_price_entries ticker price l) = get_holding t l
  | [] => by simp [update_price_entries]
  | (t2, sp) :: rest => by
      by_cases h2 : t2 = ticker
      · simp [get_holding, update_price_entries, h2, Ne.symm ht]
      · simp [get_holding, update_price_entries, h2,
          get_holding_update_price_entries_other ticker t price ht rest]

theorem map_sum_splice {α : Type} (f : α → ℚ) (e : α) (he : f e = 0)
    (l1 l2 : List α) :
    ((l1 ++ e :: l2).map f).sum = ((l1 ++ l2).map f).sum := by
  simp [List.map_append, List.sum_append, he]

theorem filter_map_sum_splice {α : Type} (pb : α → Bool) (f : α → ℚ) (e : α)
    (he : f e = 0) (l1 l2 : List α) :
    (((l1 ++ e :: l2).filter pb).map f).sum =
      (((l1 ++ l2).filter pb).map f).sum := by
  cases hpe : pb e <;>
    simp [List.filter_append, List.filter_cons, hpe, List.map_append,
      List.sum_append, he]

theorem long_market_exposure_eq_sum (m : RiskManager) :
    long_market_exposure m =
      ((m.holdings.filter fun e => decide (0 ≤ e.2.1)).map
        fun e => e.2.1 * e.2.2).sum := by
  unfold long_market_exposure
  rw [foldl_add_eq (fun e : String × ℚ × ℚ => e.2.1 * e.2.2)]
  simp

theorem short_market_exposure_eq_sum (m : RiskManager) :
    short_market_exposure m =
      ((m.holdings.filter fun e => decide (e.2.1 < 0)).map
        fun e => -e.2.1 * e.2.2).sum := by
  unfold short_market_exposure
  rw [foldl_add_eq (fun e : String × ℚ × ℚ => -e.2.1 * e.2.2)]
  simp

theorem gross_market_exposure_eq_sum (m : RiskManager) :
    gross_market_exposure m =
      (m.holdings.map fun e => |e.2.1| * e.2.2).sum := by
  unfold gross_market_exposure
  rw [foldl_add_eq (fun e : String × ℚ × ℚ => |e.2.1| * e.2.2)]
  simp

theorem net_market_exposure_eq_sum (m : RiskManager) :
    net_market_exposure m =
      (m.holdings.map fun e => e.2.1 * e.2.2).sum := by
  unfold net_market_exposure
  rw [foldl_add_eq (fun e : String × ℚ × ℚ => e.2.1 * e.2.2)]
  simp

theorem initial_margin_eq_sum (m : RiskManager) :
    initial_margin m =
      (m.holdings.map fun e => |e.2.1| * e.2.2 * decimal_new 5 1).sum := by
  unfold initial_margin
  rw [foldl_add_eq (fun e : String × ℚ × ℚ => |e.2.1| * e.2.2 * decimal_new 5 1)]
  simp

theorem maintenance_margin_eq_sum (m : RiskManager) :
    maintenance_margin m =
      (m.holdings.map
        fun e => |e.2.1| * e.2.2 * maintenance_factor e).sum := by
  unfold maintenance_margin
  rw [foldl_add_eq
    (fun e : String × ℚ × ℚ => |e.2.1| * e.2.2 * maintenance_factor e)]
  simp

/-- Claim C9: no state operation removes a ticker from the holdings map —
closing a position exactly leaves a zero-share entry carrying the fill
price, and update_holdings, update_price and update_cash all preserve
membership; a zero-share entry contributes nothing to any exposure or
margin metric; and risk_check treats a zero-share holding like a flat
position, evaluating the trade on the buying-power path because the signum
product with zero is never -1. -/
theorem zero_position_retained_and_inert :
    (∀ (m : RiskManager) (t : String) (s q p : ℚ),
      get_holding t m.holdings = some (s, q) →
      get_holding t (update_holdings m t (-s) p).holdings = some (0, p)) ∧
    (∀ (m : RiskManager) (ticker t0 : String) (ds p : ℚ),
      (get_holding t0 m.holdings).isSome = true →
      (get_holding t0 (update_holdings m ticker ds p).holdings).isSome = true) ∧
    (∀ (m : RiskManager) (ticker t0 : String) (p : ℚ),
      (get_holding t0 m.holdings).isSome = true →
      (get_holding t0 (update_price m ticker p).holdings).isSome = true) ∧
    (∀ (m : RiskManager) (t0 : String) (c : ℚ),
      (get_holding t0 m.holdings).isSome = true →
      (get_holding t0 (update_cash m c).holdings).isSome = true) ∧
    (∀ (m m' : RiskManager) (l1 l2 : List (String × ℚ × ℚ))
       (t : String) (p : ℚ),
      m.holdings = l1 ++ (t, 0, p) :: l2 → m'.holdings = l1 ++ l2 →
      long_market_exposure m = long_market_exposure m' ∧
      short_market_exposure m = short_market_exposure m' ∧
      gross_market_exposure m = gross_market_exposure m' ∧
      net_market_exposure m = net_market_exposure m' ∧
      initial_margin m = initial_margin m' ∧
      maintenance_margin m = maintenance_margin m') ∧
    (∀ (m : RiskManager) (lookup_price : String → Option ℚ)
       (ti : TradeIntent) (p : ℚ),
      get_holding ti.ticker m.holdings = some (0, p) →
      risk_check m lookup_price ti = buying_power_path m lookup_price ti) := by
  refine ⟨?_, ?_, ?_, ?_, ?_, ?_⟩
  · intro m t s q p h
    have hs := get_holding_update_entries_self t (-s) p m.holdings
    rw [h] at hs
    simpa [update_holdings] using hs
  · intro m ticker t0 ds p h
    by_cases ht : t0 = ticker
    · subst ht
      rw [show (update_holdings m t0 ds p).holdings =
          update_entries t0 ds p m.holdings from rfl,
        get_holding_update_entries_self t0 ds p m.holdings]
      cases get_holding t0 m.holdings <;> simp
    · rw [show (update_holdings m ticker ds p).holdings =
          update_entries ticker ds p m.holdings from rfl,
        get_holding_update_entries_other ticker t0 ds p ht m.holdings]
      exact h
  · intro m ticker t0 p h
    by_cases ht : t0 = ticker
    · subst ht
      rw [show (update_price m t0 p).holdings =
          update_price_entries t0 p m.holdings from rfl,
        get_holding_update_price_entries_self t0 p m.holdings]
      cases hh : get_holding t0 m.holdings with
      | none => rw [hh] at h; simp at h
      | some sq => simp
    · rw [show (update_price m ticker p).holdings =
          update_price_entries ticker p m.holdings from rfl,
        get_holding_update_price_entries_other ticker t0 p ht m.holdings]
      exact h
  · intro m t0 c h
    exact h
  · intro m m' l1 l2 t p hm hm'
    refine ⟨?_, ?_, ?_, ?_, ?_, ?_⟩
    · rw [long_market_exposure_eq_sum, long_market_exposure_eq_sum, hm, hm']
      exact filter_map_sum_splice _ _ _ (by simp) l1 l2
    · rw [short_market_exposure_eq_sum, short_market_exposure_eq_sum, hm, hm']
      exact filter_map_sum_splice _ _ _ (by simp) l1 l2
    · rw [gross_market_exposure_eq_sum, gross_market_exposure_eq_sum, hm, hm']
      exact map_sum_splice _ _ (by simp) l1 l2
    · rw [net_market_exposure_eq_sum, net_market_exposure_eq_sum, hm, hm']
      exact map_sum_splice _ _ (by simp) l1 l2
    · rw [initial_margin_eq_sum, initial_margin_eq_sum, hm, hm']
      exact map_sum_splice _ _ (by simp) l1 l2
    · rw [maintenance_margin_eq_sum, maintenance_margin_eq_sum, hm, hm']
      exact map_sum_splice _ _ (by simp) l1 l2
  · intro m lookup_price ti p h
    refine risk_check_slow_path m lookup_price ti ?_
    intro s p2 hsp
    rw [h] at hsp
    have hs : s = 0 := by
      have := (Option.some.injEq _ _).mp hsp
      exact (Prod.mk.injEq _ _ _ _).mp this |>.1.symm
    rw [hs]
    norm_num [dsignum]

theorem zero_position_retained_and_inert_witness :
    get_holding "AAPL"
      (update_holdings (RiskManager.mk 0 [("AAPL", 1, 100)] false 0 0)
        "AAPL" (-1) 120).holdings = some (0, 120) :=
  zero_position_retained_and_inert.1
    (RiskManager.mk 0 [("AAPL", 1, 100)] false 0 0) "AAPL" 1 100 120 rfl

/-- Claim C10: on the closing fast path (held ticker, opposite sign) the
decision is reached before the order type is examined: the outcome is
independent of the price oracle, is an Ok decision for every order type —
including the otherwise-unsupported ones — and is never an error or a
panic; errors can therefore arise only on the buying-power path. -/
theorem fastpath_ignores_order_type (m : RiskManager) (ti : TradeIntent)
    (s p : ℚ)
    (hheld : get_holding ti.ticker m.holdings = some (s, p))
    (hopp : dsignum (ti.qty : ℚ) * dsignum s = -1) :
    (∀ (lookup_price lookup_price2 : String → Option ℚ) (ot : OrderType),
      risk_check m lookup_price (TradeIntent.mk ti.ticker ti.qty ot) =
        risk_check m lookup_price2 (TradeIntent.mk ti.ticker ti.qty ot)) ∧
    (∀ (lookup_price : String → Option ℚ) (ot : OrderType),
      ∃ response,
        risk_check m lookup_price (TradeIntent.mk ti.ticker ti.qty ot) =
          RiskResult.ok response) ∧
    (∀ (lookup_price : String → Option ℚ) (msg : String),
      risk_check m lookup_price ti ≠ RiskResult.err msg ∧
      risk_check m lookup_price ti ≠ RiskResult.crash msg) := by
  refine ⟨?_, ?_, ?_⟩
  · intro lp lp2 ot
    rw [risk_check_fast_path m lp (TradeIntent.mk ti.ticker ti.qty ot) s p
        hheld hopp,
      risk_check_fast_path m lp2 (TradeIntent.mk ti.ticker ti.qty ot) s p
        hheld hopp]
  · intro lp ot
    rw [risk_check_fast_path m lp (TradeIntent.mk ti.ticker ti.qty ot) s p
        hheld hopp]
    by_cases hc : |(ti.qty : ℚ)| > |s|
    · exact ⟨_, if_pos hc⟩
    · exact ⟨_, if_neg hc⟩
  · intro lp msg
    rw [risk_check_fast_path m lp ti s p hheld hopp]
    constructor <;> by_cases hc : |(ti.qty : ℚ)| > |s| <;> simp [hc]

theorem fastpath_ignores_order_type_witness :
    risk_check (RiskManager.mk 0 [("AAPL", 5, 100)] false 0 0)
      (fun _ => none) (TradeIntent.mk "AAPL" (-3) OrderType.market) =
      risk_check (RiskManager.mk 0 [("AAPL", 5, 100)] false 0 0)
        (fun _ => some 1000000) (TradeIntent.mk "AAPL" (-3) OrderType.market) :=
  (fastpath_ignores_order_type (RiskManager.mk 0 [("AAPL", 5, 100)] false 0 0)
    (TradeIntent.mk "AAPL" (-3) OrderType.market) 5 100 rfl
    (by norm_num [dsignum])).1 (fun _ => none) (fun _ => some 1000000)
    OrderType.market

/-!
Sanity checks against the values asserted by the unit tests in
src/risk_manager.rs (`equity_calculations` and `risk_check`): the state with
cash 300 holding 1 AAPL at 100 and -2 TSLA at 80.
-/

example :
    long_market_exposure
      (RiskManager.mk 300 [("AAPL", 1, 100), ("TSLA", -2, 80)] true 0 0) =
      100 := by
  norm_num [long_market_exposure]

example :
    short_market_exposure
      (RiskManager.mk 300 [("AAPL", 1, 100), ("TSLA", -2, 80)] true 0 0) =
      160 := by
  norm_num [short_market_exposure]

example :
    gross_market_exposure
      (RiskManager.mk 300 [("AAPL", 1, 100), ("TSLA", -2, 80)] true 0 0) =
      260 := by
  norm_num [gross_market_exposure]

example :
    equity (RiskManager.mk 300 [("AAPL", 1, 100), ("TSLA", -2, 80)] true 0 0) =
      240 := by
  norm_num [equity, net_market_exposure]

example :
    initial_margin
      (RiskManager.mk 300 [("AAPL", 1, 100), ("TSLA", -2, 80)] true 0 0) =
      130 := by
  norm_num [initial_margin, decimal_new]

example :
    maintenance_margin
      (RiskManager.mk 300 [("AAPL", 1, 100), ("TSLA", -2, 80)] true 0 0) =
      78 := by
  norm_num [maintenance_margin, maintenance_factor, decimal_new]

example :
    buying_power
      (RiskManager.mk 300 [("AAPL", 1, 100), ("TSLA", -2, 80)] true 0 0) =
      220 := by
  norm_num [buying_power, regt_buying_power, daytrading_buying_power, equity,
    net_market_exposure, initial_margin, gross_market_exposure, multiplier,
    decimal_new]

example :
    risk_check
      (RiskManager.mk 300 [("AAPL", 1, 100), ("TSLA", -2, 80)] true 0 0)
      (fun _ => none) (TradeIntent.mk "AAPL" 1 (OrderType.limit 240)) =
      RiskResult.ok
        (RiskCheckResponse.denied
          (TradeIntent.mk "AAPL" 1 (OrderType.limit 240))
          (DenyReason.insufficientBuyingPower 220)) := by
  norm_num [risk_check, get_holding, dsignum, buying_power_path,
    compare_buying_power, buying_power, regt_buying_power,
    daytrading_buying_power, equity, net_market_exposure, initial_margin,
    gross_market_exposure, multiplier, decimal_new]

example :
    risk_check
      (RiskManager.mk 300 [("AAPL", 1, 100), ("TSLA", -2, 80)] true 0 0)
      (fun _ => none) (TradeIntent.mk "AAPL" 1 (OrderType.limit 100)) =
      RiskResult.ok
        (RiskCheckResponse.granted
          (TradeIntent.mk "AAPL" 1 (OrderType.limit 100))) := by
  norm_num [risk_check, get_holding, dsignum, buying_power_path,
    compare_buying_power, buying_power, regt_buying_power,
    daytrading_buying_power, equity, net_market_exposure, initial_margin,
    gross_market_exposure, multiplier, decimal_new]

end RiskSpec
